import Mathlib

/-!
Verification of the `piresence` repository's Home Assistant WebSocket
client (`hass::wsapi`) and surrogate server (`hass::hast`) against their
natural-language specification.

The Rust sources are shallowly embedded: pure functions become Lean
functions, the async handlers become functions from an explicit input
(the list of messages read from a socket or channel) to the list of
messages or commands they emit, and machine integers become `Nat` with
explicit `% 2 ^ 64` where wrap-around matters.
-/

namespace Hass

/-! ## Message schema, embedded from `src/hass/src/json.rs` -/

/-- `pub type Id = u64;` (values kept below `2 ^ 64` by the allocator). -/
abbrev Id := Nat

/-- `serde_json::Value`: dynamic JSON payloads (`data`, `event_data`,
`variables`). Numbers are modelled as `Int`; no claim inspects a numeric
payload. -/
inductive JsonValue where
  | null
  | bool (b : Bool)
  | num (n : Int)
  | str (s : String)
  | arr (xs : List JsonValue)
  | obj (fields : List (String × JsonValue))

/-- `chrono::DateTime<Utc>` as seconds and nanoseconds since the epoch. -/
structure DateTimeUtc where
  secs : Int
  nanos : Nat
deriving DecidableEq, Repr

/-- `EventType` from `json.rs`: closed enumeration with a catch-all
`unknown`. -/
inductive EventType where
  | callService
  | componentLoaded
  | coreConfigUpdated
  | dataEntryFlowProgressed
  | homeassistantStart
  | homeassistantStarted
  | homeassistantStop
  | homeassistantFinalWrite
  | homeassistantClose
  | logbookEntry
  | serviceRegistered
  | serviceRemoved
  | stateChanged
  | themesUpdated
  | timerOutOfSync
  | timeChanged
  | userAdded
  | userRemoved
  | automationReloaded
  | automationTriggered
  | sceneReloaded
  | scriptStarted
  | haevloStart
  | haevloStop
  | unknown
deriving DecidableEq, Repr

/-- `ContextObject` from `json.rs`. -/
structure ContextObject where
  id : String
  parent_id : Option String
  user_id : Option String
deriving DecidableEq, Repr

/-- `ErrorObject` from `json.rs`. -/
structure ErrorObject where
  code : String
  message : String
deriving DecidableEq, Repr

/-- `ResultObject` from `json.rs` (untagged union). -/
inductive ResultObject where
  | object (context : ContextObject)
  | array (xs : List JsonValue)

/-- `ResultBody` from `json.rs` (untagged union flattened into
`WsMessage::Result`). -/
inductive ResultBody where
  | result (result : Option ResultObject)
  | error (error : ErrorObject)

/-- `EventObj` from `json.rs` (untagged union of the Event and Trigger
shapes); `vars` stands for the source's field of trigger payloads. -/
inductive EventObj where
  | event (data : JsonValue) (event_type : EventType)
      (time_fired : DateTimeUtc) (origin : String)
      (context : ContextObject)
  | trigger (vars : JsonValue) (context : ContextObject)

/-- `WsMessage` from `json.rs`: the tagged union of wire messages. -/
inductive WsMessage where
  | authRequired (ha_version : String)
  | auth (access_token : String)
  | authOk (ha_version : String)
  | authInvalid (message : String)
  | result (id : Id) (success : Bool) (data : ResultBody)
  | subscribeEvents (id : Id) (event_type : Option EventType)
  | event (id : Id) (event : EventObj)
  | unsubscribeEvents (id : Id) (subscription : Id)
  | fireEvent (id : Id) (event_type : EventType)
      (event_data : Option JsonValue)
  | getStates (id : Id)
  | ping (id : Id)
  | pong (id : Id)

/-- `WsMessage::new_result_success` from `json.rs`: a `Result` with the
given `id`, `success` set to `true` and an empty `ResultBody::Result`. -/
def WsMessage.new_result_success (id : Id) : WsMessage :=
  .result id true (.result none)

/-- `WsMessage::id` from `json.rs`: the `Id` associated to the message,
if any. -/
def WsMessage.id : WsMessage → Option Id
  | .result id _ _ => some id
  | .subscribeEvents id _ => some id
  | .unsubscribeEvents id _ => some id
  | .event id _ => some id
  | .fireEvent id _ _ => some id
  | .getStates id => some id
  | .ping id => some id
  | .pong id => some id
  | .auth _ => none
  | .authInvalid _ => none
  | .authOk _ => none
  | .authRequired _ => none

/-- `WsMessage::set_id` from `json.rs`: substitutes the `id` field where
the variant has one, returns the message as-is otherwise. -/
def WsMessage.set_id : WsMessage → Id → WsMessage
  | .result _ success data, new_id => .result new_id success data
  | .subscribeEvents _ event_type, new_id =>
      .subscribeEvents new_id event_type
  | .unsubscribeEvents _ subscription, new_id =>
      .unsubscribeEvents new_id subscription
  | .event _ ev, new_id => .event new_id ev
  | .fireEvent _ event_type event_data, new_id =>
      .fireEvent new_id event_type event_data
  | .getStates _, new_id => .getStates new_id
  | .ping _, new_id => .ping new_id
  | .pong _, new_id => .pong new_id
  | m@(.auth _), _ => m
  | m@(.authInvalid _), _ => m
  | m@(.authOk _), _ => m
  | m@(.authRequired _), _ => m

/-! ## ID allocator, embedded from `src/hass/src/sync/atomic.rs` -/

/-- The `AtomicU64` wraps at `2 ^ 64`. -/
def u64Mod : Nat := 2 ^ 64

/-- `AtomicId::new`: the counter starts holding `1`. -/
def AtomicId.new : Nat := 1

/-- `AtomicId::next`: `fetch_add(1)` returns the old value and stores the
incremented value, wrapping at `2 ^ 64`. -/
def AtomicId.next (s : Nat) : Nat × Nat :=
  (s, (s + 1) % u64Mod)

/-- Counter value after `k` calls to `next()` on a fresh `AtomicId`. -/
def AtomicId.stateAfter : Nat → Nat
  | 0 => AtomicId.new
  | k + 1 => (AtomicId.next (AtomicId.stateAfter k)).2

/-- Value returned by the `n`-th call (1-based) to `next()` on a fresh
`AtomicId`. -/
def AtomicId.nthReturn (n : Nat) : Nat :=
  (AtomicId.next (AtomicId.stateAfter (n - 1))).1

/-! ## Surrogate server, embedded from `src/hass/src/hast.rs` -/

/-- `HastMessage` from `hast.rs`: pre-session setup messages. -/
inductive HastMessage where
  | name (s : String)
  | token (s : String)
  | scenario (s : String)
  | start
deriving DecidableEq, Repr

/-- The `ha_version` string built by `HastConfig::new_with_scenario` from
the `CARGO_PKG_VERSION` and `CARGO_PKG_NAME` environment of the build. -/
def hastHaVersion : String := "0.1.0-hass"

/-- `HastConfig` from `hast.rs`. -/
structure HastConfig where
  port : Nat
  token : String
  yaml_dir : String
  yaml_scenario : Option String
  skip_hast_messages : Bool
  ha_version : String
deriving DecidableEq, Repr

/-- `HastConfig::new_with_scenario` from `hast.rs`: note that it stores
`skip_hast_messages: false` unconditionally, whether or not
`yaml_scenario` is provided. -/
def HastConfig.new_with_scenario (port : Nat) (token yaml_dir : String)
    (yaml_scenario : Option String) : HastConfig :=
  { port := port
    token := token
    yaml_dir := yaml_dir
    yaml_scenario := yaml_scenario
    ha_version := hastHaVersion
    skip_hast_messages := false }

/-- `HastConfig::new` from `hast.rs`. -/
def HastConfig.new (port : Nat) (token yaml_dir : String) : HastConfig :=
  HastConfig.new_with_scenario port token yaml_dir none

/-- `HastConnConfig` from `hast.rs`, flattened together with the fields it
reads through `common_cfg`. -/
structure HastConnConfig where
  token : String
  yaml_scenario : Option String
  name : Option String
  yaml_dir : String
  ha_version : String
  skip_hast_messages : Bool
deriving DecidableEq, Repr

/-- `HastConnConfig::new` from `hast.rs`: copies `token` and
`yaml_scenario` from the shared config and starts with no name. -/
def HastConnConfig.new (hc : HastConfig) : HastConnConfig :=
  { token := hc.token
    yaml_scenario := hc.yaml_scenario
    name := none
    yaml_dir := hc.yaml_dir
    ha_version := hc.ha_version
    skip_hast_messages := hc.skip_hast_messages }

/-- Guard of the configuration loop in `accept_connection`
(`while ! cfg.skip_hast_messages()`): the per-connection setup phase is
entered exactly when this is `true`. -/
def setupLoopEntered (cfg : HastConnConfig) : Bool :=
  !cfg.skip_hast_messages

/-- Effect of one `HastMessage` on the connection config inside the setup
loop of `accept_connection` (`Start` breaks out of the loop, leaving the
config unchanged). -/
def applyHastMessage (cfg : HastConnConfig) : HastMessage → HastConnConfig
  | .name n => { cfg with name := some n }
  | .token t => { cfg with token := t }
  | .scenario p => { cfg with yaml_scenario := some p }
  | .start => cfg

/-- Result of one `handle_message` call on the surrogate: the messages
pushed onto the connection's outbound channel, in order, and whether the
call panicked (the `unwrap()` of `yaml_scenario`). Messages sent before
the panic are recorded. -/
structure HandleOutcome where
  sent : List WsMessage
  panicked : Bool

/-- `handle_message` from `hast.rs`. The filesystem is passed explicitly:
`fs path` is `none` when opening `path` fails, otherwise the list of YAML
documents of the scenario file in file order, each either a well-formed
`WsMessage` (`some`) or malformed (`none`). -/
def handle_message (fs : String → Option (List (Option WsMessage)))
    (cfg : HastConnConfig) : WsMessage → HandleOutcome
  | .auth access_token =>
      { sent := [if access_token = cfg.token then
                   .authOk cfg.ha_version
                 else
                   .authInvalid "wrong token"]
        panicked := false }
  | .subscribeEvents id _ =>
      match cfg.yaml_scenario with
      | none =>
          -- `cfg.yaml_scenario.as_ref().unwrap()` panics; the success
          -- `result` was already pushed.
          { sent := [WsMessage.new_result_success id], panicked := true }
      | some scenario =>
          match fs (cfg.yaml_dir ++ "/" ++ scenario) with
          | none =>
              -- `File::open` failed: logged, nothing further is sent.
              { sent := [WsMessage.new_result_success id]
                panicked := false }
          | some docs =>
              -- each well-formed document is ID-rewritten and pushed;
              -- malformed documents are logged and skipped.
              { sent := WsMessage.new_result_success id ::
                  docs.filterMap (fun d => d.map (fun ev => ev.set_id id))
                panicked := false }
  | .ping id => { sent := [.pong id], panicked := false }
  | m =>
      { sent := [.result (m.id.getD 0) false
          (.error { code := "000", message := "unexpected message" })]
        panicked := false }

/-- `true` exactly on the messages the catch-all arm of `handle_message`
handles (everything except `Auth`, `SubscribeEvents` and `Ping`). -/
def handledByCatchAll : WsMessage → Bool
  | .auth _ => false
  | .subscribeEvents _ _ => false
  | .ping _ => false
  | _ => true

/-! ## Client errors, embedded from `src/hass/src/error.rs` (the variants
the claims touch; `cause` strings stand for `anyhow::Error` values). -/

inductive Error where
  | Authentication (msg : String)
  | UnexpectedMessage (m : WsMessage)
  | UnexpectedBinaryMessage
  | ProtocolError (code message : String)
  | NoNextMessage
  | SendError (m : WsMessage)
  | InternalError (cause : String)

/-! ## Client API, embedded from `src/hass/src/wsapi.rs` -/

/-- `WsApi2::authenticate` from `wsapi.rs`, as a function of the
authentication token and of the stream of messages the socket yields
(`read_message` fails with `NoNextMessage` on an exhausted stream).
Returns the messages written to the socket, in order, and the result. -/
def WsApi2.authenticate (auth_token : String) :
    List WsMessage → List WsMessage × Except Error Unit
  | [] => ([], .error .NoNextMessage)
  | .authRequired _ :: rest =>
      -- auth_required received: send `auth{access_token}` and await the
      -- reply.
      let sent := [WsMessage.auth auth_token]
      match rest with
      | [] => (sent, .error .NoNextMessage)
      | .authOk _ :: _ => (sent, .ok ())
      | .authInvalid message :: _ =>
          (sent, .error (.Authentication message))
      | u :: _ => (sent, .error (.UnexpectedMessage u))
  | u :: _ => ([], .error (.UnexpectedMessage u))

/-- The connected client handle (transport state elided). -/
structure WsApi where
  auth_token : String
deriving DecidableEq, Repr

/-- Modelled from the spec: the final `WsApi::new` (connect), which is
not under `src/` (the `WsApi::new` present there only opens the socket
and spawns the messenger, while the authentication sequencing lives in
`WsApi2::authenticate` and the repository's tests call a four-argument
`WsApi::new` that authenticates inside connect). Connect performs the
authentication exchange of `WsApi2::authenticate` and returns a `WsApi`
iff it succeeds. -/
def WsApi.connect (auth_token : String) (incoming : List WsMessage) :
    List WsMessage × Except Error WsApi :=
  let r := WsApi2.authenticate auth_token incoming
  (r.1, r.2.map (fun _ => { auth_token := auth_token }))

/-- `true` exactly on `auth_required`. -/
def isAuthRequired : WsMessage → Bool
  | .authRequired _ => true
  | _ => false

/-- `true` exactly on `auth_ok` and `auth_invalid`, the two replies
`authenticate` accepts after sending the token. -/
def isAuthReply : WsMessage → Bool
  | .authOk _ => true
  | .authInvalid _ => true
  | _ => false

/-- `true` exactly on `result`. -/
def isResult : WsMessage → Bool
  | .result _ _ _ => true
  | _ => false

/-- `Command` from `wsapi.rs`: commands sent to the messenger task. A
`Register` carries the fresh sink's sender in the source; the model keeps
the registered id. -/
inductive Command where
  | message (m : WsMessage)
  | register (id : Id)
  | quit

/-- `FromReply::receiver_or_error` for `WsMessage` from `wsapi.rs`:
`result{success:true}` returns the sink (the not-yet-consumed rest of its
stream), `result{success:false}` surfaces the protocol error carried in
its body (`ProtocolError("None","None")` when the body carries none), and
anything else is an unexpected message. -/
def receiver_or_error (reply : WsMessage) (rx : List WsMessage) :
    Except Error (List WsMessage) :=
  match reply with
  | .result _ true _ => .ok rx
  | .result _ false (.error e) => .error (.ProtocolError e.code e.message)
  | .result _ false (.result _) => .error (.ProtocolError "None" "None")
  | u => .error (.UnexpectedMessage u)

/-- `WsApi::subscribe_events` (single optional filter) from `wsapi.rs`,
as a function of the allocator state `s` and of the stream of messages
subsequently routed to the fresh sink. Returns the commands sent to the
messenger in order (`registration()` sends `Register(id)` before the
`subscribe_events{id}` message is sent), the new allocator state, and the
call's result. -/
def WsApi.subscribe_events (s : Nat) (event_type : Option EventType)
    (sink : List WsMessage) :
    List Command × Nat × Except Error (List WsMessage) :=
  let id := (AtomicId.next s).1
  let s' := (AtomicId.next s).2
  let cmds := [Command.register id,
               Command.message (.subscribeEvents id event_type)]
  match sink with
  | [] => (cmds, s', .error (.InternalError "missing response"))
  | reply :: rest => (cmds, s', receiver_or_error reply rest)

/-! ## Shutdown coordinator, embedded from `src/hass/src/sync/shutdown.rs` -/

/-- `Shutdown` from `shutdown.rs`: the per-handle latch (the watch
receiver and the completion sender carry no state the claims read). -/
structure Shutdown where
  shutdown : Bool
deriving DecidableEq, Repr

/-- `Shutdown::is_shutdown`. -/
def Shutdown.is_shutdown (s : Shutdown) : Bool :=
  s.shutdown

/-- `Shutdown::recv`: returns whether the call awaited the notification
channel (`self.notify.changed().await`), together with the handle state
after the call. An already-latched handle returns immediately. -/
def Shutdown.recv (s : Shutdown) : Bool × Shutdown :=
  if s.shutdown then (false, s) else (true, { shutdown := true })

/-- `Manager::subscribe`: fresh handles start un-latched. -/
def Manager.subscribe : Shutdown :=
  { shutdown := false }

/-- Events observable by one `Shutdown` handle: a `recv()` call on it
running to completion, or its `Manager` releasing the shutdown signal
(`Manager::shutdown` drops the watch sender; it never touches the
handle's own `shutdown` flag). -/
inductive ShutdownEvent where
  | recvCompleted
  | managerReleased
deriving DecidableEq, Repr

/-- Handle state after one event. -/
def Shutdown.step (s : Shutdown) : ShutdownEvent → Shutdown
  | .recvCompleted => (s.recv).2
  | .managerReleased => s

/-- Handle state after a sequence of events. -/
def Shutdown.run (s : Shutdown) : List ShutdownEvent → Shutdown
  | [] => s
  | e :: es => (s.step e).run es

/-! ## YAML event-log reader, embedded from `src/hass/src/yaml.rs` -/

/-- The document separator `"\n---\n"` of `read_next_yaml`. -/
def sepChars : List Char := ['\n', '-', '-', '-', '\n']

/-- `BufRead::read_line`: one line, up to and including the next `'\n'`
(or to end of input), plus the unread rest. -/
def readLine : List Char → List Char × List Char
  | [] => ([], [])
  | c :: cs =>
      if c = '\n' then ([c], cs)
      else
        let p := readLine cs
        (c :: p.1, p.2)

/-- `doc.ends_with(sep)` for the accumulated document. -/
def endsWithSep (doc : List Char) : Bool :=
  decide (doc.drop (doc.length - 5) = sepChars)

/-- The read loop of `read_next_yaml`: accumulate lines into `doc`;
after each line, if `doc` is longer than the separator and ends with it,
truncate the separator away and stop; stop at end of input. The fuel is
the length of the remaining input (each `read_line` on a non-empty input
consumes at least one character, so the loop of the source terminates
within that many iterations). -/
def readNextYamlLoop : Nat → List Char → List Char → List Char × List Char
  | 0, input, doc => (doc, input)
  | _ + 1, [], doc => (doc, [])
  | fuel + 1, c :: cs, doc =>
      let p := readLine (c :: cs)
      let doc2 := doc ++ p.1
      if doc2.length > 5 ∧ endsWithSep doc2 = true then
        (doc2.take (doc2.length - 5), p.2)
      else
        readNextYamlLoop fuel p.2 doc2

/-- `BufReaderYamlExt::read_next_yaml` from `yaml.rs`: the next document
chunk, if the accumulated text is non-empty, plus the unread input. -/
def read_next_yaml (input : List Char) :
    Option (List Char) × List Char :=
  let r := readNextYamlLoop input.length input []
  if r.1.isEmpty then (none, r.2) else (some r.1, r.2)

/-- Repeated `read_next_yaml` until it yields `None`: the list of
document chunks in input order. -/
def readAllYamlLoop : Nat → List Char → List (List Char)
  | 0, _ => []
  | fuel + 1, input =>
      match read_next_yaml input with
      | (none, _) => []
      | (some doc, rest) => doc :: readAllYamlLoop fuel rest

/-- All document chunks of a string. -/
def readAllYaml (s : String) : List (List Char) :=
  readAllYamlLoop (s.length + 1) s.toList

/-- `'\n'`-stripping helper for `yamlScalar`. -/
def dropNewlines : List Char → List Char
  | '\n' :: cs => dropNewlines cs
  | cs => cs

/-- Modelled from the spec: the YAML parse of one scalar document chunk
by the external `serde_yaml` crate ("each document one message"; here the
documents are bare scalars `A`, `B`, `C`). A scalar document is its text
with an optional leading `---` separator line removed and surrounding
blank lines ignored. -/
def yamlScalar (doc : List Char) : String :=
  let d :=
    match doc with
    | '-' :: '-' :: '-' :: '\n' :: rest => rest
    | d => d
  String.mk (dropNewlines (dropNewlines d.reverse).reverse)

/-! ## Helper lemmas -/

theorem AtomicId.stateAfter_eq (k : Nat) :
    AtomicId.stateAfter k = (1 + k) % u64Mod := by
  induction k with
  | zero =>
      simp [AtomicId.stateAfter, AtomicId.new, u64Mod]
  | succ k ih =>
      have h1 : (1 : Nat) % u64Mod = 1 := Nat.mod_eq_of_lt (by decide)
      calc AtomicId.stateAfter (k + 1)
          = ((1 + k) % u64Mod + 1) % u64Mod := by
            simp [AtomicId.stateAfter, AtomicId.next, ih]
        _ = ((1 + k) % u64Mod + 1 % u64Mod) % u64Mod := by rw [h1]
        _ = (1 + k + 1) % u64Mod := by rw [← Nat.add_mod]
        _ = (1 + (k + 1)) % u64Mod := by ring_nf

theorem AtomicId.nthReturn_eq (n : Nat) (h : 1 ≤ n) :
    AtomicId.nthReturn n = n % u64Mod := by
  have h2 : 1 + (n - 1) = n := by omega
  simp [AtomicId.nthReturn, AtomicId.next, AtomicId.stateAfter_eq, h2]

theorem Shutdown.run_shutdown_iff (s : Shutdown)
    (events : List ShutdownEvent) :
    (s.run events).shutdown = true ↔
      (s.shutdown = true ∨ ShutdownEvent.recvCompleted ∈ events) := by
  induction events generalizing s with
  | nil => simp [Shutdown.run]
  | cons e es ih =>
      cases e with
      | recvCompleted =>
          have hlatch : ((s.recv).2).shutdown = true := by
            by_cases hs : s.shutdown <;>
              simp [Shutdown.recv, hs]
          simp [Shutdown.run, Shutdown.step, ih, hlatch]
      | managerReleased =>
          simp [Shutdown.run, Shutdown.step, ih]

/-! ## Claim theorems -/

/-- C5: for every `WsMessage` `m` and all ids `a`, `b`,
`set_id (set_id m a) b = set_id m b`; variants without an id are returned
unchanged by `set_id`, so the equation holds for every variant. -/
theorem set_id_overwrite (m : WsMessage) (a b : Id) :
    (m.set_id a).set_id b = m.set_id b ∧
    (m.id = none → m.set_id a = m) := by
  cases m <;> simp [WsMessage.set_id, WsMessage.id]

theorem set_id_overwrite_witness :
    ((WsMessage.auth "t").set_id 1).set_id 2
        = (WsMessage.auth "t").set_id 2 ∧
    (WsMessage.auth "t").set_id 1 = WsMessage.auth "t" :=
  ⟨(set_id_overwrite (WsMessage.auth "t") 1 2).1,
   (set_id_overwrite (WsMessage.auth "t") 1 2).2 rfl⟩

/-- C6: successive `next()` calls on one fresh `AtomicId` return
`1, 2, 3, …` (the `n`-th call returns `n` for `n ≤ 2 ^ 64 - 1`), and the
call after the one that returns `2 ^ 64 - 1` returns `0`: the counter
wraps modulo `2 ^ 64`. -/
theorem atomic_id_sequence :
    (∀ n : Nat, 1 ≤ n → n ≤ u64Mod - 1 → AtomicId.nthReturn n = n) ∧
    AtomicId.nthReturn (u64Mod - 1) = u64Mod - 1 ∧
    AtomicId.nthReturn u64Mod = 0 := by
  refine ⟨fun n h1 h2 => ?_, ?_, ?_⟩
  · rw [AtomicId.nthReturn_eq n h1]
    exact Nat.mod_eq_of_lt (Nat.lt_of_le_of_lt h2 (by decide))
  · rw [AtomicId.nthReturn_eq (u64Mod - 1) (by decide)]
    exact Nat.mod_eq_of_lt (by decide)
  · rw [AtomicId.nthReturn_eq u64Mod (by decide)]
    exact Nat.mod_self u64Mod

theorem atomic_id_sequence_witness : AtomicId.nthReturn 3 = 3 :=
  atomic_id_sequence.1 3 (by decide) (by decide)

/-- C7: the YAML event-log reader splits
`"---\nA\n---\n\nB\n\n---\nC"` into exactly three documents parsing to
`A`, `B`, `C` in that order, and `"A\n---\nB"` into `A` then `B` (the
leading separator is optional and blank lines between documents are
allowed). -/
theorem yaml_splitter_examples :
    (readAllYaml "---\nA\n---\n\nB\n\n---\nC").map yamlScalar
        = ["A", "B", "C"] ∧
    (readAllYaml "A\n---\nB").map yamlScalar = ["A", "B"] :=
  ⟨by decide, by decide⟩

/-- C1: authentication is sequenced inside connect: a first message other
than `auth_required` fails with an unexpected-message error before
anything is sent; on `auth_required` the client sends
`auth{access_token}` and then returns a `WsApi` iff the reply is
`auth_ok`, fails with an authentication error on `auth_invalid{message}`,
and fails with an unexpected-message error on any other reply. -/
theorem connect_auth_sequencing (auth_token : String) :
    (∀ m rest, isAuthRequired m = false →
        WsApi.connect auth_token (m :: rest)
          = ([], .error (.UnexpectedMessage m))) ∧
    (∀ v rest,
        (WsApi.connect auth_token (.authRequired v :: rest)).1
          = [WsMessage.auth auth_token]) ∧
    (∀ v v2 rest,
        WsApi.connect auth_token (.authRequired v :: .authOk v2 :: rest)
          = ([WsMessage.auth auth_token],
             .ok { auth_token := auth_token })) ∧
    (∀ v msg rest,
        WsApi.connect auth_token
            (.authRequired v :: .authInvalid msg :: rest)
          = ([WsMessage.auth auth_token],
             .error (.Authentication msg))) ∧
    (∀ v u rest, isAuthReply u = false →
        WsApi.connect auth_token (.authRequired v :: u :: rest)
          = ([WsMessage.auth auth_token],
             .error (.UnexpectedMessage u))) := by
  refine ⟨?_, ?_, ?_, ?_, ?_⟩
  · intro m rest h
    cases m <;> simp_all [WsApi.connect, WsApi2.authenticate,
      isAuthRequired, Except.map]
  · intro v rest
    cases rest with
    | nil => rfl
    | cons r rs => cases r <;> rfl
  · intro v v2 rest
    rfl
  · intro v msg rest
    rfl
  · intro v u rest h
    cases u <;> simp_all [WsApi.connect, WsApi2.authenticate,
      isAuthReply, Except.map]

theorem connect_auth_sequencing_witness :
    WsApi.connect "t" [WsMessage.ping 1]
        = ([], .error (.UnexpectedMessage (WsMessage.ping 1))) ∧
    WsApi.connect "t" [.authRequired "v", .authOk "w"]
        = ([WsMessage.auth "t"], .ok { auth_token := "t" }) ∧
    WsApi.connect "t" [.authRequired "v", .ping 2]
        = ([WsMessage.auth "t"],
           .error (.UnexpectedMessage (WsMessage.ping 2))) :=
  ⟨(connect_auth_sequencing "t").1 (.ping 1) [] rfl,
   (connect_auth_sequencing "t").2.2.1 "v" "w" [],
   (connect_auth_sequencing "t").2.2.2.2 "v" (.ping 2) [] rfl⟩

/-- C3: `WsApi::subscribe_events` (single optional filter) allocates a
fresh id `k` from the allocator, sends `Register(k)` to the messenger
before the `subscribe_events{id:k}` message, and settles on the first
message of the sink: `result{success:true}` returns the sink as the event
stream, `result{success:false}` fails with a protocol error, anything
else fails with an unexpected-message error. -/
theorem subscribe_events_protocol (s : Nat)
    (event_type : Option EventType) (sink : List WsMessage) :
    (WsApi.subscribe_events s event_type sink).1
        = [Command.register s,
           Command.message (.subscribeEvents s event_type)] ∧
    (WsApi.subscribe_events s event_type sink).2.1 = (s + 1) % u64Mod ∧
    (∀ i b rest, sink = .result i true b :: rest →
        (WsApi.subscribe_events s event_type sink).2.2 = .ok rest) ∧
    (∀ i b rest, sink = .result i false b :: rest →
        ∃ code msg, (WsApi.subscribe_events s event_type sink).2.2
          = .error (.ProtocolError code msg)) ∧
    (∀ u rest, sink = u :: rest → isResult u = false →
        (WsApi.subscribe_events s event_type sink).2.2
          = .error (.UnexpectedMessage u)) := by
  refine ⟨?_, ?_, ?_, ?_, ?_⟩
  · cases sink <;> rfl
  · cases sink <;> rfl
  · intro i b rest h
    subst h
    simp [WsApi.subscribe_events, receiver_or_error]
  · intro i b rest h
    subst h
    cases b with
    | result r =>
        exact ⟨"None", "None", by
          simp [WsApi.subscribe_events, receiver_or_error]⟩
    | error e =>
        exact ⟨e.code, e.message, by
          simp [WsApi.subscribe_events, receiver_or_error]⟩
  · intro u rest h hu
    subst h
    cases u <;> simp_all [isResult, WsApi.subscribe_events,
      receiver_or_error]

theorem subscribe_events_protocol_witness :
    (WsApi.subscribe_events 1 none [WsMessage.new_result_success 1]).1
        = [Command.register 1, Command.message (.subscribeEvents 1 none)] ∧
    (WsApi.subscribe_events 1 none [WsMessage.new_result_success 1]).2.2
        = .ok [] :=
  ⟨(subscribe_events_protocol 1 none [WsMessage.new_result_success 1]).1,
   (subscribe_events_protocol 1 none
      [WsMessage.new_result_success 1]).2.2.1 1 (.result none) [] rfl⟩

/-- C2: on `subscribe_events{id}` in the operational state with a
configured scenario whose file opens, the surrogate first pushes
`result{id, success:true}` and then, for each well-formed document of the
scenario file in file order, that message with its id rewritten via
`set_id` to the subscription id, in one burst; malformed documents are
skipped without aborting the remaining documents. -/
theorem hast_subscribe_playback
    (fs : String → Option (List (Option WsMessage)))
    (cfg : HastConnConfig) (id : Id) (event_type : Option EventType)
    (scenario : String) (docs : List (Option WsMessage))
    (h1 : cfg.yaml_scenario = some scenario)
    (h2 : fs (cfg.yaml_dir ++ "/" ++ scenario) = some docs) :
    handle_message fs cfg (.subscribeEvents id event_type)
      = { sent := WsMessage.new_result_success id ::
            docs.filterMap (fun d => d.map (fun ev => ev.set_id id))
          panicked := false } := by
  simp [handle_message, h1, h2]

theorem hast_subscribe_playback_witness :
    handle_message
        (fun _ => some [some (WsMessage.ping 7), none,
                        some (WsMessage.getStates 9)])
        { token := "letmein", yaml_scenario := some "000-base.yaml",
          name := none, yaml_dir := "res",
          ha_version := hastHaVersion, skip_hast_messages := false }
        (.subscribeEvents 5 none)
      = { sent := WsMessage.new_result_success 5 ::
            ([some (WsMessage.ping 7), none,
              some (WsMessage.getStates 9)]).filterMap
              (fun d => d.map (fun ev => ev.set_id 5))
          panicked := false } :=
  hast_subscribe_playback _ _ 5 none "000-base.yaml" _ rfl rfl

/-- C4 (code evaluation at the failing input): a `HastConfig` built by
`new_with_scenario` with an explicit scenario still has
`skip_hast_messages = false`, so the per-connection setup loop of
`accept_connection` is entered even though the scenario is fixed. -/
theorem hast_new_with_scenario_setup_not_skipped :
    (HastConfig.new_with_scenario 8123 "letmein" "."
        (some "000-base.yaml")).yaml_scenario = some "000-base.yaml" ∧
    (HastConfig.new_with_scenario 8123 "letmein" "."
        (some "000-base.yaml")).skip_hast_messages = false ∧
    setupLoopEntered (HastConnConfig.new (HastConfig.new_with_scenario
        8123 "letmein" "." (some "000-base.yaml"))) = true :=
  ⟨rfl, rfl, rfl⟩

/-- C8: the `subscribe_events` arm of the surrogate's `handle_message`
panics exactly when no scenario is configured, in which case no error
reply follows the already-pushed success `result`; configuring a scenario
(here via a `Scenario` setup message) makes the panic branch unreachable. -/
theorem hast_subscribe_unwrap
    (fs : String → Option (List (Option WsMessage)))
    (cfg : HastConnConfig) (id : Id) (event_type : Option EventType) :
    ((handle_message fs cfg (.subscribeEvents id event_type)).panicked
        = true ↔ cfg.yaml_scenario = none) ∧
    (cfg.yaml_scenario = none →
        (handle_message fs cfg (.subscribeEvents id event_type)).sent
          = [WsMessage.new_result_success id]) ∧
    (∀ p, (handle_message fs (applyHastMessage cfg (.scenario p))
        (.subscribeEvents id event_type)).panicked = false) := by
  refine ⟨?_, ?_, ?_⟩
  · cases h : cfg.yaml_scenario with
    | none => simp [handle_message, h]
    | some scenario =>
        cases hf : fs (cfg.yaml_dir ++ "/" ++ scenario) <;>
          simp [handle_message, h, hf]
  · intro h
    simp [handle_message, h]
  · intro p
    cases hf : fs (cfg.yaml_dir ++ "/" ++ p) <;>
      simp [handle_message, applyHastMessage, hf]

theorem hast_subscribe_unwrap_witness :
    (handle_message (fun _ => none)
        { token := "letmein", yaml_scenario := none, name := none,
          yaml_dir := ".", ha_version := hastHaVersion,
          skip_hast_messages := false }
        (.subscribeEvents 3 none)).panicked = true ∧
    (handle_message (fun _ => none)
        { token := "letmein", yaml_scenario := none, name := none,
          yaml_dir := ".", ha_version := hastHaVersion,
          skip_hast_messages := false }
        (.subscribeEvents 3 none)).sent
      = [WsMessage.new_result_success 3] :=
  have h := hast_subscribe_unwrap (fun _ => none)
    { token := "letmein", yaml_scenario := none, name := none,
      yaml_dir := ".", ha_version := hastHaVersion,
      skip_hast_messages := false } 3 none
  ⟨h.1.mpr rfl, h.2.1 rfl⟩

/-- C9 counterexample: the allocator does issue 0 — its `2 ^ 64`-th
allocation returns 0 after the counter wraps, so "never issues" fails at
that concrete call. -/
theorem atomic_id_issues_zero : AtomicId.nthReturn u64Mod = 0 := by
  rw [AtomicId.nthReturn_eq u64Mod (by decide)]
  exact Nat.mod_self u64Mod

/-- C9 (amended): the surrogate's synthetic failure reply to an
unexpected message carries `success:false`, code `"000"`, message
`"unexpected message"`, reuses the request's id when it carries one and
carries id 0 otherwise — a value the client allocator, which starts at 1,
does not issue within its first `2 ^ 64 - 1` allocations (it returns 0
only after the counter wraps). -/
theorem hast_unexpected_reply
    (fs : String → Option (List (Option WsMessage)))
    (cfg : HastConnConfig) (m : WsMessage)
    (h : handledByCatchAll m = true) :
    handle_message fs cfg m
      = { sent := [.result (m.id.getD 0) false
            (.error { code := "000", message := "unexpected message" })]
          panicked := false } ∧
    (∀ i, m.id = some i → m.id.getD 0 = i) ∧
    (m.id = none → m.id.getD 0 = 0) ∧
    (∀ n, 1 ≤ n → n ≤ u64Mod - 1 → AtomicId.nthReturn n ≠ 0) := by
  refine ⟨?_, ?_, ?_, fun n h1 h2 => ?_⟩
  · cases m <;> simp_all [handledByCatchAll, handle_message,
      WsMessage.id]
  · intro i hi
    rw [hi]
    rfl
  · intro hn
    rw [hn]
    rfl
  · rw [AtomicId.nthReturn_eq n h1,
      Nat.mod_eq_of_lt (Nat.lt_of_le_of_lt h2 (by decide))]
    omega

theorem hast_unexpected_reply_witness :
    handle_message (fun _ => none)
        { token := "letmein", yaml_scenario := none, name := none,
          yaml_dir := ".", ha_version := hastHaVersion,
          skip_hast_messages := false }
        (.pong 5)
      = { sent := [.result 5 false
            (.error { code := "000", message := "unexpected message" })]
          panicked := false } ∧
    AtomicId.nthReturn 5 ≠ 0 :=
  have h := hast_unexpected_reply (fun _ => none)
    { token := "letmein", yaml_scenario := none, name := none,
      yaml_dir := ".", ha_version := hastHaVersion,
      skip_hast_messages := false } (.pong 5) rfl
  ⟨h.1, h.2.2.2 5 (by decide) (by decide)⟩

/-- C10: for a handle subscribed to the manager, `is_shutdown()` is
`true` exactly when some `recv()` has completed on it — the manager
releasing the signal alone never changes it — and a `recv()` on an
already-latched handle (in particular any `recv()` after the first)
returns immediately without awaiting the notification channel. -/
theorem shutdown_latch (events : List ShutdownEvent) :
    ((Manager.subscribe.run events).is_shutdown = true ↔
        ShutdownEvent.recvCompleted ∈ events) ∧
    (∀ s : Shutdown, s.shutdown = true → s.recv = (false, s)) ∧
    (∀ s : Shutdown, ((s.recv).2).recv = (false, (s.recv).2)) := by
  refine ⟨?_, ?_, ?_⟩
  · rw [Shutdown.is_shutdown, Shutdown.run_shutdown_iff]
    simp [Manager.subscribe]
  · intro s hs
    simp [Shutdown.recv, hs]
  · intro s
    by_cases hs : s.shutdown <;> simp [Shutdown.recv, hs]

theorem shutdown_latch_witness :
    ((Manager.subscribe.run [ShutdownEvent.managerReleased]).is_shutdown
        = true ↔
      ShutdownEvent.recvCompleted ∈ [ShutdownEvent.managerReleased]) ∧
    (Shutdown.mk true).recv = (false, Shutdown.mk true) :=
  have h := shutdown_latch [ShutdownEvent.managerReleased]
  ⟨h.1, h.2.1 (Shutdown.mk true) rfl⟩

end Hass
